import Mathlib

/-!
# Verification of the order-placement / bracket-attachment workflow

Shallow embedding of `trading_service.py` (class `TradingService`) and of the
strategy lifecycle manager (`strategy_manager.py`, `breakout_service.py`,
`base_strategy.py`).

Modelling conventions:
* Python `Optional[T]` becomes `Option T`; Python truthiness of optional
  numbers / strings is made explicit (`none` and `some 0` / `some ""` are
  falsy, as in the source's `if product_id:` style tests).
* The exchange gateway (`DeltaRestClient`) is an external collaborator; it is
  modelled as an oracle (`Gateway`) giving, for each call the code can make,
  either a normal JSON-dict result or a raised exception (`Except String`).
  Successful gateway responses are dicts (possibly empty), never `None`.
* Prices are `Rat` (the code only compares them to zero, converts them with
  `str(...)` and checks `is not None`).
* Every function returns, besides its Python return value, the observable
  call counts (entry submissions, position lookups, bracket creations), so
  that "no gateway call is made" claims are statable.
-/

/-- Python truthiness of an `Optional[int]`: `None` and `0` are falsy. -/
def truthyInt : Option Int → Bool
  | none => false
  | some n => n != 0

/-- Python truthiness of an `Optional[float]` price: `None` and `0.0` are falsy. -/
def truthyRat : Option Rat → Bool
  | none => false
  | some x => x != 0

/-- Python truthiness of an `Optional[str]`: `None` and `""` are falsy. -/
def truthyStr : Option String → Bool
  | none => false
  | some s => s != ""

/-- A JSON-style dict returned by the exchange for bracket creation; only its
identity and (non-)emptiness matter to the code under verification. -/
abbrev Dict := List (String × String)

/-- The dict returned by `client.create_order`: the code reads only
`state` and `average_fill_price` (absent key ↦ `none`, mirroring `.get`). -/
structure EntryResult where
  state : Option String
  average_fill_price : Option Rat
  deriving Repr, DecidableEq

/-- The dict returned by `client.get_margined_position`: the code reads only
`size` (absent key ↦ default `0`, mirroring `position.get('size', 0)`). -/
structure PositionResp where
  size : Option Rat
  deriving Repr, DecidableEq

/-- The payload built for the stop-limit entry order
(`trading_service.py` lines 247-271). -/
structure OrderPayload where
  size : Int
  side : String
  order_type : String
  limit_price : String
  stop_price : String
  stop_order_type : String
  stop_trigger_method : String
  time_in_force : String
  reduce_only : String
  mmp : String
  cancel_orders_accepted : Bool
  product_id : Option Int
  product_symbol : Option String
  client_order_id : Option String
  deriving Repr, DecidableEq

/-- One leg of the bracket payload (`trading_service.py` lines 145-157). -/
structure BracketLeg where
  order_type : String
  stop_price : String
  limit_price : String
  deriving Repr, DecidableEq

/-- Oracle for the exchange gateway: the response (normal result or raised
exception) of each call the trading service can make.  `get_margined_position`
is indexed by the poll attempt number, so a different answer may be given to
each poll of the retry loop. -/
structure Gateway where
  clientCheck : Except String Unit
  createOrder : OrderPayload → Except String EntryResult
  getPosition : Nat → Except String (Option PositionResp)
  createBracketOrder : Except String Dict

/-- Embedding of `TradingService._check_position_exists` (`trading_service.py` lines 49-81):
`True` iff the lookup returns a truthy position dict with non-zero `size`;
every raised exception, a `None`/falsy position, a missing `size` key and a
zero size all yield `False`.  Requires a truthy `product_id`. -/
def _check_position_exists (gw : Gateway) (product_id : Option Int) (attempt : Nat) : Bool :=
  if truthyInt product_id then
    match gw.getPosition attempt with
    | .error _ => false
    | .ok none => false
    | .ok (some position) => (position.size.getD 0) != 0
  else
    false

/-- The `for attempt in range(max_retries)` polling loop of
`_place_bracket_orders` (`trading_service.py` lines 117-126), started at poll
index `attempt` with `fuel` iterations left.  Returns whether a position was
found together with the number of `get_margined_position` calls performed. -/
def pollLoop (gw : Gateway) (product_id : Option Int) : Nat → Nat → Bool × Nat
  | 0, _ => (false, 0)
  | fuel + 1, attempt =>
    if _check_position_exists gw product_id attempt then
      (true, 1)
    else
      let rest := pollLoop gw product_id fuel (attempt + 1)
      (rest.1, rest.2 + 1)

/-- Error message built on poll exhaustion (`trading_service.py` line 129). -/
def posNotFoundMsg (max_retries : Nat) (retry_delay : Rat) : String :=
  "Position not found after " ++ toString max_retries ++ " attempts (" ++
    toString ((max_retries : Rat) * retry_delay) ++
    "s). Bracket orders require an existing position."

/-- Error message of `_place_bracket_orders` when both legs are absent
(`trading_service.py` line 160). -/
def noSLTPMsg : String := "No stop loss or take profit price provided"

/-- Bracket-attachment note stored next to a bracket error
(`trading_service.py` line 329). -/
def bracketNoteMsg : String :=
  "Bracket orders will be placed automatically once position is created"

/-- Result of `_place_bracket_orders`: the Python `(bracket_result,
error_message)` pair plus the observable gateway call counts. -/
structure BracketOutcome where
  result : Option Dict
  error : Option String
  posPolls : Nat
  bracketCalls : Nat
  deriving Repr, DecidableEq

/-- The leg-construction and bracket-submission phase of
`_place_bracket_orders` (`trading_service.py` lines 138-179): build the legs
from the truthy prices, fail if both are absent, otherwise submit one
`create_bracket_order` call, catching any raised exception as the error
string. -/
def bracketPhase (gw : Gateway) (stop_loss_price take_profit_price : Option Rat)
    (polls : Nat) : BracketOutcome :=
  let stop_loss_order : Option BracketLeg :=
    if truthyRat stop_loss_price then
      some { order_type := "limit_order"
             stop_price := toString (stop_loss_price.getD 0)
             limit_price := toString (stop_loss_price.getD 0) }
    else none
  let take_profit_order : Option BracketLeg :=
    if truthyRat take_profit_price then
      some { order_type := "limit_order"
             stop_price := toString (take_profit_price.getD 0)
             limit_price := toString (take_profit_price.getD 0) }
    else none
  if stop_loss_order.isNone && take_profit_order.isNone then
    { result := none, error := some noSLTPMsg, posPolls := polls, bracketCalls := 0 }
  else
    match gw.createBracketOrder with
    | .ok bracket_result =>
        { result := some bracket_result, error := none
          posPolls := polls, bracketCalls := 1 }
    | .error e =>
        { result := none, error := some e, posPolls := polls, bracketCalls := 1 }

/-- Embedding of `TradingService._place_bracket_orders` (`trading_service.py` lines
83-179): when `product_id` is truthy, first poll position existence up to
`max_retries` times and return the deterministic exhaustion error if no
position appears; otherwise (or once a position is found) run the
leg-construction / submission phase. -/
def _place_bracket_orders (gw : Gateway) (product_id : Option Int)
    (stop_loss_price take_profit_price : Option Rat)
    (max_retries : Nat) (retry_delay : Rat) : BracketOutcome :=
  if truthyInt product_id then
    let poll := pollLoop gw product_id max_retries 0
    if poll.1 then
      bracketPhase gw stop_loss_price take_profit_price poll.2
    else
      { result := none, error := some (posNotFoundMsg max_retries retry_delay)
        posPolls := poll.2, bracketCalls := 0 }
  else
    bracketPhase gw stop_loss_price take_profit_price 0

/-- Python `str.upper()` (the symbols handled here are ASCII). -/
def pyUpper (s : String) : String := String.mk (s.data.map Char.toUpper)

/-- Python `str.strip()`: drop leading and trailing whitespace. -/
def pyStrip (s : String) : String :=
  String.mk (((s.data.dropWhile Char.isWhitespace).reverse.dropWhile Char.isWhitespace).reverse)

/-- The static symbol table of `place_limit_order_wait`
(`trading_service.py` lines 223-226). -/
def SYMBOL_TO_PRODUCT : List (String × String) :=
  [("BTC", "BTCUSD"), ("ETH", "ETHUSD")]

/-- Validation error for a whitespace-only `product_symbol`
(`trading_service.py` line 234). -/
def invalidProductSymbolMsg (product_symbol : String) : String :=
  "Invalid product_symbol: " ++ product_symbol

/-- Validation error for a whitespace-only `symbol` (`trading_service.py` line 238). -/
def invalidSymbolMsg : String := "Invalid symbol provided"

/-- Validation error for a symbol outside the static table
(`trading_service.py` line 242); it names the known symbols. -/
def unknownSymbolMsg (symbol : String) : String :=
  "Symbol \x27" ++ symbol ++ "\x27 not recognized. Known symbols: [\x27BTC\x27, \x27ETH\x27]"

/-- Validation error when no instrument identifier is given
(`trading_service.py` lines 244 and 267). -/
def noIdentifierMsg : String :=
  "Either product_id, product_symbol, or symbol must be provided"

/-- The instrument-resolution block of `place_limit_order_wait`
(`trading_service.py` lines 219-244): a truthy `product_id` wins; else a
truthy `product_symbol` is trimmed and upper-cased (whitespace-only is
rejected); else a truthy `symbol` is upper-cased, trimmed and mapped through
`SYMBOL_TO_PRODUCT` (whitespace-only and unmapped symbols are rejected); else
the call is rejected.  Returns `(final_product_id, final_product_symbol)`. -/
def resolveProduct (product_id : Option Int) (product_symbol symbol : Option String) :
    Except String (Option Int × Option String) :=
  if truthyInt product_id then
    .ok (product_id, none)
  else if truthyStr product_symbol then
    let ps := product_symbol.getD ""
    if pyStrip ps != "" then
      .ok (none, some (pyUpper (pyStrip ps)))
    else
      .error (invalidProductSymbolMsg ps)
  else if truthyStr symbol then
    let s := symbol.getD ""
    let symbol_upper := pyStrip (pyUpper s)
    if symbol_upper == "" then
      .error invalidSymbolMsg
    else
      match SYMBOL_TO_PRODUCT.lookup symbol_upper with
      | some prod => .ok (none, some prod)
      | none => .error (unknownSymbolMsg s)
  else
    .error noIdentifierMsg

/-- The overall result of `place_limit_order_wait`: the Python
`(success, order_data, error_message)` triple, the observable gateway call
counts, and the `(max_retries, retry_delay)` budget handed to the bracket
workflow (`none` when the workflow was not invoked). -/
structure OrderData where
  base : EntryResult
  bracket_order : Option Dict
  bracket_order_error : Option (Option String)
  bracket_order_note : Option String
  deriving Repr, DecidableEq

structure PlowOutcome where
  success : Bool
  order_data : Option OrderData
  error : Option String
  entryCalls : Nat
  posPolls : Nat
  bracketCalls : Nat
  bracketInvocation : Option (Nat × Rat)
  deriving Repr, DecidableEq

/-- A `PlowOutcome` for the paths that fail before any gateway interaction. -/
def plowReject (msg : String) : PlowOutcome :=
  { success := false, order_data := none, error := some msg
    entryCalls := 0, posPolls := 0, bracketCalls := 0, bracketInvocation := none }

/-- The entry-order payload build of `place_limit_order_wait`
(`trading_service.py` lines 247-271), given the resolved identifiers. -/
def buildOrderPayload (entry_price : Rat) (size : Int) (side : String)
    (client_order_id : Option String)
    (final_product_id : Option Int) (final_product_symbol : Option String) : OrderPayload :=
  { size := size
    side := side
    order_type := "limit_order"
    limit_price := toString entry_price
    stop_price := toString entry_price
    stop_order_type := "stop_loss_order"
    stop_trigger_method := "last_traded_price"
    time_in_force := "gtc"
    reduce_only := "false"
    mmp := "disabled"
    cancel_orders_accepted := false
    product_id := if truthyInt final_product_id then final_product_id else none
    product_symbol :=
      if truthyInt final_product_id then none
      else if truthyStr final_product_symbol then final_product_symbol else none
    client_order_id := if truthyStr client_order_id then client_order_id else none }

/-- The tail of `place_limit_order_wait` after a successful `create_order`
call (`trading_service.py` lines 286-331): classify the response as
immediately-executed (`state == "closed"` with a non-null
`average_fill_price`) or resting; when a truthy stop-loss or take-profit
price is present, run `_place_bracket_orders` with the (10, 0.5) budget for
executed orders and the (60, 1.0) budget for resting ones, then merge the
workflow's outcome into the returned dict under `bracket_order` (truthy
result) or `bracket_order_error` / `bracket_order_note`; the call returns
`success = True` with the (possibly annotated) entry result either way. -/
def plowAfterEntry (gw : Gateway) (final_product_id : Option Int)
    (stop_loss_price take_profit_price : Option Rat) (result : EntryResult) : PlowOutcome :=
  let order_state := result.state
  let average_fill_price := result.average_fill_price
  let order_executed := order_state == some "closed" && average_fill_price.isSome
  if truthyRat stop_loss_price || truthyRat take_profit_price then
    let budget : Nat × Rat := if order_executed then (10, 0.5) else (60, 1)
    let bo := _place_bracket_orders gw final_product_id
      stop_loss_price take_profit_price budget.1 budget.2
    let order_data : OrderData :=
      match bo.result with
      | some bracket_result =>
        if bracket_result.isEmpty then
          { base := result, bracket_order := none
            bracket_order_error := some bo.error
            bracket_order_note := some bracketNoteMsg }
        else
          { base := result, bracket_order := some bracket_result
            bracket_order_error := none, bracket_order_note := none }
      | none =>
        { base := result, bracket_order := none
          bracket_order_error := some bo.error
          bracket_order_note := some bracketNoteMsg }
    { success := true, order_data := some order_data, error := bo.error
      entryCalls := 1, posPolls := bo.posPolls, bracketCalls := bo.bracketCalls
      bracketInvocation := some budget }
  else
    { success := true
      order_data := some { base := result, bracket_order := none
                           bracket_order_error := none, bracket_order_note := none }
      error := none, entryCalls := 1, posPolls := 0, bracketCalls := 0
      bracketInvocation := none }

/-- Embedding of `TradingService.place_limit_order_wait` (`trading_service.py` lines
181-336).  Resolve the instrument; build and submit the stop-limit entry
order (any raised exception becomes a `(False, None, msg)` return); continue
with `plowAfterEntry` on submission success. -/
def place_limit_order_wait (gw : Gateway) (entry_price : Rat) (size : Int) (side : String)
    (stop_loss_price take_profit_price : Option Rat) (client_order_id : Option String)
    (product_id : Option Int) (product_symbol symbol : Option String) : PlowOutcome :=
  match resolveProduct product_id product_symbol symbol with
  | .error e => plowReject e
  | .ok (final_product_id, final_product_symbol) =>
    if !truthyInt final_product_id && !truthyStr final_product_symbol then
      plowReject noIdentifierMsg
    else
      let order := buildOrderPayload entry_price size side client_order_id
        final_product_id final_product_symbol
      match gw.clientCheck with
      | .error e => plowReject e
      | .ok _ =>
        match gw.createOrder order with
        | .error e =>
            { success := false, order_data := none, error := some e
              entryCalls := 1, posPolls := 0, bracketCalls := 0, bracketInvocation := none }
        | .ok result =>
            plowAfterEntry gw final_product_id stop_loss_price take_profit_price result

/-!
## Strategy lifecycle manager

Embedding of `StrategyManager` (`strategy_manager.py`) together with the
status-relevant behaviour of `BreakoutService.stop` (`breakout_service.py`
lines 147-184) and `BaseStrategy.set_status` (`base_strategy.py` lines
82-92).  The registry `self.strategies` is modelled as an association list
from strategy id to the instance's `StrategyStatus`; thread scheduling is
abstracted away and the two sources of nondeterminism the code leaves to the
runtime — whether `BreakoutService` construction / `start()` succeed, and
whether an exception interrupts `stop()` — are oracle parameters.
-/

/-- Embedding of `StrategyStatus` (`base_strategy.py` lines 9-14). -/
inductive StrategyStatus where
  | stopped
  | running
  | error
  | completed
  deriving Repr, DecidableEq

/-- The manager's `self.strategies` dict, reduced to each instance's status. -/
abbrev Registry := List (String × StrategyStatus)

/-- Dict lookup: first entry with the given id. -/
def lookupStrategy : Registry → String → Option StrategyStatus
  | [], _ => none
  | (i, s) :: rest, id => if i = id then some s else lookupStrategy rest id

/-- In-place status mutation of the instance stored under `id`
(Python mutates the object held in the dict). -/
def updateStrategy : Registry → String → StrategyStatus → Registry
  | [], _, _ => []
  | (i, s) :: rest, id, s2 =>
    if i = id then (i, s2) :: rest else (i, s) :: updateStrategy rest id s2

/-- Embedding of `del self.strategies[strategy_id]`. -/
def removeStrategyEntry : Registry → String → Registry
  | [], _ => []
  | (i, s) :: rest, id =>
    if i = id then rest else (i, s) :: removeStrategyEntry rest id

/-- Status effect of `BreakoutService.stop` (`breakout_service.py` lines
147-184) on the instance's status: an already-STOPPED instance returns `True`
immediately with no status change; otherwise the stop path runs and — unless
an uncaught exception (`stopExc`) interrupts it, in which case it returns
`False` leaving the status as it was — ends with `set_status(STOPPED)` and
returns `True`, whatever the previous status (RUNNING or ERROR alike). -/
def breakoutStop (status : StrategyStatus) (stopExc : Bool) : Bool × StrategyStatus :=
  if status = .stopped then
    (true, status)
  else if stopExc then
    (false, status)
  else
    (true, .stopped)

/-- Oracle for the runtime-dependent parts of `start_strategy`: the fresh
`uuid4` id, whether `BreakoutService(...)` construction raises, and what the
spawned strategy's `start()` returns. -/
structure StartEnv where
  newId : String
  constructOk : Except String Unit
  startResult : Bool

/-- Embedding of `StrategyManager.start_strategy` (`strategy_manager.py` lines 26-56):
a strategy type other than `"breakout"` raises `ValueError`; a construction
failure propagates; a `start()` returning `False` raises `RuntimeError`; only
the successful path registers the new instance (which the background thread
sets RUNNING) under the fresh id.  Returns the raised-or-returned id together
with the registry left behind. -/
def start_strategy (env : StartEnv) (reg : Registry) (strategy_type : String) :
    Except String String × Registry :=
  if strategy_type = "breakout" then
    match env.constructOk with
    | .error e => (.error e, reg)
    | .ok _ =>
      if env.startResult then
        (.ok env.newId, reg ++ [(env.newId, .running)])
      else
        (.error ("Failed to start strategy " ++ env.newId), reg)
  else
    (.error ("Unknown strategy type: " ++ strategy_type), reg)

/-- Embedding of `StrategyManager.stop_strategy` (`strategy_manager.py` lines 58-85):
an unknown id returns `False`; otherwise the instance's `stop()` runs and its
boolean is returned, the instance staying registered either way. -/
def stop_strategy (reg : Registry) (strategy_id : String) (stopExc : Bool) :
    Bool × Registry :=
  match lookupStrategy reg strategy_id with
  | none => (false, reg)
  | some status =>
    let r := breakoutStop status stopExc
    (r.1, updateStrategy reg strategy_id r.2)

/-- Embedding of `StrategyManager.remove_strategy` (`strategy_manager.py` lines 128-156):
an unknown id returns `False`; a RUNNING instance is stopped first; the entry
is then deleted and `True` returned. -/
def remove_strategy (reg : Registry) (strategy_id : String) (stopExc : Bool) :
    Bool × Registry :=
  match lookupStrategy reg strategy_id with
  | none => (false, reg)
  | some status =>
    let reg2 :=
      if status = .running then
        updateStrategy reg strategy_id (breakoutStop status stopExc).2
      else reg
    (true, removeStrategyEntry reg2 strategy_id)

/-- Embedding of `StrategyManager.get_strategy_status` (`strategy_manager.py` lines
113-126) reduced to the status field: a pure read of the registry. -/
def get_strategy_status (reg : Registry) (strategy_id : String) : Option StrategyStatus :=
  lookupStrategy reg strategy_id

/-!
## Concrete gateways and registries used as witnesses
-/

/-- Predicate: `sub` occurs contiguously inside `s`. -/
def containsSub (s sub : String) : Prop := ∃ l r, s = l ++ sub ++ r

/-- Gateway whose position lookups always report no position. -/
def gwPosAbsent : Gateway :=
  { clientCheck := .ok ()
    createOrder := fun _ => .ok { state := some "open", average_fill_price := none }
    getPosition := fun _ => .ok none
    createBracketOrder := .ok [("id", "1")] }

/-- Gateway whose position lookups always raise a transport error. -/
def gwRaise : Gateway :=
  { clientCheck := .ok ()
    createOrder := fun _ => .ok { state := some "open", average_fill_price := none }
    getPosition := fun _ => .error "HTTP 500"
    createBracketOrder := .ok [("id", "1")] }

/-- Gateway whose position lookups immediately report an open position. -/
def gwPosNow : Gateway :=
  { clientCheck := .ok ()
    createOrder := fun _ => .ok { state := some "open", average_fill_price := none }
    getPosition := fun _ => .ok (some { size := some 1 })
    createBracketOrder := .ok [("id", "7")] }

/-- Gateway reporting an immediately-executed entry order and an immediately
existing position. -/
def gwExec : Gateway :=
  { clientCheck := .ok ()
    createOrder := fun _ => .ok { state := some "closed", average_fill_price := some 100 }
    getPosition := fun _ => .ok (some { size := some 1 })
    createBracketOrder := .ok [("id", "7")] }

/-- Gateway whose bracket-order creation raises. -/
def gwBracketFail : Gateway :=
  { clientCheck := .ok ()
    createOrder := fun _ => .ok { state := some "open", average_fill_price := none }
    getPosition := fun _ => .ok (some { size := some 1 })
    createBracketOrder := .error "insufficient margin" }

/-!
## Helper lemmas
-/

theorem pollLoop_all_false (gw : Gateway) (pid : Option Int) :
    ∀ (fuel attempt : Nat),
    (∀ i, i < fuel → _check_position_exists gw pid (attempt + i) = false) →
    pollLoop gw pid fuel attempt = (false, fuel) := by
  intro fuel
  induction fuel with
  | zero => intro attempt _; rfl
  | succ k ih =>
    intro attempt h
    have h0 : _check_position_exists gw pid attempt = false := by
      have := h 0 (Nat.succ_pos k)
      simpa using this
    have hrec : pollLoop gw pid k (attempt + 1) = (false, k) := by
      apply ih
      intro i hi
      have e : attempt + 1 + i = attempt + (i + 1) := by omega
      rw [e]
      exact h (i + 1) (by omega)
    unfold pollLoop
    rw [h0]
    simp [hrec]

theorem pollLoop_first_success (gw : Gateway) (pid : Option Int) :
    ∀ (fuel attempt k : Nat), k < fuel →
    _check_position_exists gw pid (attempt + k) = true →
    (∀ i, i < k → _check_position_exists gw pid (attempt + i) = false) →
    pollLoop gw pid fuel attempt = (true, k + 1) := by
  intro fuel
  induction fuel with
  | zero => intro attempt k hk _ _; exact absurd hk (Nat.not_lt_zero k)
  | succ f ih =>
    intro attempt k hk hfound hprev
    cases k with
    | zero =>
      have h0 : _check_position_exists gw pid attempt = true := by simpa using hfound
      unfold pollLoop
      rw [h0]
      simp
    | succ j =>
      have h0 : _check_position_exists gw pid attempt = false := by
        have := hprev 0 (Nat.succ_pos j)
        simpa using this
      have hrec : pollLoop gw pid f (attempt + 1) = (true, j + 1) := by
        apply ih (attempt + 1) j (by omega)
        · have e : attempt + 1 + j = attempt + (j + 1) := by omega
          rw [e]; exact hfound
        · intro i hi
          have e : attempt + 1 + i = attempt + (i + 1) := by omega
          rw [e]
          exact hprev (i + 1) (by omega)
      unfold pollLoop
      rw [h0]
      simp [hrec]

theorem pollLoop_calls_le (gw : Gateway) (pid : Option Int) :
    ∀ (fuel attempt : Nat), (pollLoop gw pid fuel attempt).2 ≤ fuel := by
  intro fuel
  induction fuel with
  | zero => intro attempt; exact Nat.le_refl 0
  | succ k ih =>
    intro attempt
    unfold pollLoop
    by_cases h : _check_position_exists gw pid attempt = true
    · rw [h]; simp
    · rw [Bool.of_not_eq_true h]
      simpa using Nat.succ_le_succ (ih (attempt + 1))

theorem bracketPhase_dichotomy (gw : Gateway) (slp tpp : Option Rat) (polls : Nat) :
    ((bracketPhase gw slp tpp polls).result = none ∧
      ∃ e, (bracketPhase gw slp tpp polls).error = some e) ∨
    (∃ br, (bracketPhase gw slp tpp polls).result = some br ∧
      (bracketPhase gw slp tpp polls).error = none) := by
  unfold bracketPhase
  repeat' split
  all_goals simp

/-- The workflow returns exactly one of a result and an error. -/
theorem _place_bracket_orders_dichotomy (gw : Gateway) (pid : Option Int)
    (slp tpp : Option Rat) (mr : Nat) (rd : Rat) :
    ((_place_bracket_orders gw pid slp tpp mr rd).result = none ∧
      ∃ e, (_place_bracket_orders gw pid slp tpp mr rd).error = some e) ∨
    (∃ br, (_place_bracket_orders gw pid slp tpp mr rd).result = some br ∧
      (_place_bracket_orders gw pid slp tpp mr rd).error = none) := by
  unfold _place_bracket_orders
  dsimp only
  split
  · split
    · exact bracketPhase_dichotomy gw slp tpp _
    · exact Or.inl ⟨rfl, posNotFoundMsg mr rd, rfl⟩
  · exact bracketPhase_dichotomy gw slp tpp 0

/-- A raised position lookup makes `_check_position_exists` report `False`. -/
theorem _check_position_exists_of_error (gw : Gateway) (pid : Option Int) (i : Nat)
    (e : String) (h : gw.getPosition i = .error e) :
    _check_position_exists gw pid i = false := by
  unfold _check_position_exists
  rw [h]
  split <;> rfl

/-- Reduction: `place_limit_order_wait` equals `plowAfterEntry` whenever instrument
resolution, client acquisition and entry submission all succeed. -/
theorem place_limit_order_wait_entry_eq
    (gw : Gateway) (entry_price : Rat) (size : Int) (side : String)
    (slp tpp : Option Rat) (coid : Option String)
    (product_id : Option Int) (product_symbol symbol : Option String)
    (fpid : Option Int) (fpsym : Option String) (result : EntryResult)
    (hres : resolveProduct product_id product_symbol symbol = .ok (fpid, fpsym))
    (hid : (truthyInt fpid || truthyStr fpsym) = true)
    (hcli : gw.clientCheck = .ok ())
    (hord : gw.createOrder (buildOrderPayload entry_price size side coid fpid fpsym)
      = .ok result) :
    place_limit_order_wait gw entry_price size side slp tpp coid
      product_id product_symbol symbol = plowAfterEntry gw fpid slp tpp result := by
  unfold place_limit_order_wait
  rw [hres]
  have hcond : (!truthyInt fpid && !truthyStr fpsym) = false := by
    cases h1 : truthyInt fpid <;> cases h2 : truthyStr fpsym <;> simp_all
  simp only [hcond, Bool.false_eq_true, if_false, hcli, hord]

theorem bracketPhase_posPolls (gw : Gateway) (slp tpp : Option Rat) (polls : Nat) :
    (bracketPhase gw slp tpp polls).posPolls = polls := by
  unfold bracketPhase
  repeat' split
  all_goals rfl

theorem bracketPhase_noSLTP (gw : Gateway) (slp tpp : Option Rat) (polls : Nat)
    (hsl : truthyRat slp = false) (htp : truthyRat tpp = false) :
    bracketPhase gw slp tpp polls =
      { result := none, error := some noSLTPMsg, posPolls := polls, bracketCalls := 0 } := by
  simp [bracketPhase, hsl, htp]

theorem posNotFoundMsg_contains (mr : Nat) (rd : Rat) :
    containsSub (posNotFoundMsg mr rd) (toString mr) ∧
    containsSub (posNotFoundMsg mr rd) (toString ((mr : Rat) * rd)) := by
  constructor
  · refine ⟨"Position not found after ",
      " attempts (" ++ (toString ((mr : Rat) * rd) ++
        "s). Bracket orders require an existing position."), ?_⟩
    show ((("Position not found after " ++ toString mr) ++ " attempts (") ++
        toString ((mr : Rat) * rd)) ++
        "s). Bracket orders require an existing position." = _
    exact (String.append_assoc _ _ _).trans (String.append_assoc _ _ _)
  · exact ⟨"Position not found after " ++ toString mr ++ " attempts (",
      "s). Bracket orders require an existing position.", rfl⟩

theorem posNotFoundMsg_ne_noSLTPMsg (mr : Nat) (rd : Rat) :
    posNotFoundMsg mr rd ≠ noSLTPMsg := by
  intro h
  have h1 : (posNotFoundMsg mr rd).data.head? = some 'P' := by
    unfold posNotFoundMsg
    rw [String.data_append, String.data_append, String.data_append, String.data_append]
    rfl
  rw [h] at h1
  exact absurd h1 (by decide)

theorem unknownSymbolMsg_contains (s : String) :
    containsSub (unknownSymbolMsg s) "BTC" ∧ containsSub (unknownSymbolMsg s) "ETH" := by
  constructor
  · refine ⟨"Symbol \x27" ++ s ++ "\x27 not recognized. Known symbols: [\x27",
      "\x27, \x27ETH\x27]", ?_⟩
    have e1 : (("Symbol \x27" ++ s ++ "\x27 not recognized. Known symbols: [\x27") ++
        "BTC") ++ "\x27, \x27ETH\x27]" =
        ("Symbol \x27" ++ s ++ "\x27 not recognized. Known symbols: [\x27") ++
        ("BTC" ++ "\x27, \x27ETH\x27]") := String.append_assoc _ _ _
    have e2 : (("Symbol \x27" ++ s) ++ "\x27 not recognized. Known symbols: [\x27") ++
        ("BTC" ++ "\x27, \x27ETH\x27]") =
        ("Symbol \x27" ++ s) ++ ("\x27 not recognized. Known symbols: [\x27" ++
        ("BTC" ++ "\x27, \x27ETH\x27]")) := String.append_assoc _ _ _
    have e3 : "\x27 not recognized. Known symbols: [\x27" ++ ("BTC" ++ "\x27, \x27ETH\x27]") =
        "\x27 not recognized. Known symbols: [\x27BTC\x27, \x27ETH\x27]" := by decide
    rw [e1, e2, e3]
    rfl
  · refine ⟨"Symbol \x27" ++ s ++ "\x27 not recognized. Known symbols: [\x27BTC\x27, \x27",
      "\x27]", ?_⟩
    have e1 : (("Symbol \x27" ++ s ++ "\x27 not recognized. Known symbols: [\x27BTC\x27, \x27") ++
        "ETH") ++ "\x27]" =
        ("Symbol \x27" ++ s ++ "\x27 not recognized. Known symbols: [\x27BTC\x27, \x27") ++
        ("ETH" ++ "\x27]") := String.append_assoc _ _ _
    have e2 : (("Symbol \x27" ++ s) ++ "\x27 not recognized. Known symbols: [\x27BTC\x27, \x27") ++
        ("ETH" ++ "\x27]") =
        ("Symbol \x27" ++ s) ++ ("\x27 not recognized. Known symbols: [\x27BTC\x27, \x27" ++
        ("ETH" ++ "\x27]")) := String.append_assoc _ _ _
    have e3 : "\x27 not recognized. Known symbols: [\x27BTC\x27, \x27" ++ ("ETH" ++ "\x27]") =
        "\x27 not recognized. Known symbols: [\x27BTC\x27, \x27ETH\x27]" := by decide
    rw [e1, e2, e3]
    rfl

/-!
## Claim theorems
-/

/-- C3: for every call to the bracket workflow with a known (truthy)
`product_id`, the polling loop performs at most `max_retries` position
lookups, stops at the first lookup reporting a non-zero-size position (doing
exactly `k + 1` lookups when the first success is at 0-based index `k`), and
if all `max_retries` lookups report no position it returns `(None, error)`
with no `create_bracket_order` call, the error containing the attempt count
and the total elapsed time `max_retries × retry_delay`. -/
theorem c3_polling_budget (gw : Gateway) (pid : Option Int) (slp tpp : Option Rat)
    (mr : Nat) (rd : Rat) (hpid : truthyInt pid = true) :
    (_place_bracket_orders gw pid slp tpp mr rd).posPolls ≤ mr ∧
    (∀ k, k < mr → _check_position_exists gw pid k = true →
      (∀ i, i < k → _check_position_exists gw pid i = false) →
      (_place_bracket_orders gw pid slp tpp mr rd).posPolls = k + 1) ∧
    ((∀ i, i < mr → _check_position_exists gw pid i = false) →
      _place_bracket_orders gw pid slp tpp mr rd =
        { result := none, error := some (posNotFoundMsg mr rd)
          posPolls := mr, bracketCalls := 0 } ∧
      containsSub (posNotFoundMsg mr rd) (toString mr) ∧
      containsSub (posNotFoundMsg mr rd) (toString ((mr : Rat) * rd))) := by
  refine ⟨?_, ?_, ?_⟩
  · unfold _place_bracket_orders
    rw [if_pos hpid]
    dsimp only
    split
    · rw [bracketPhase_posPolls]
      exact pollLoop_calls_le gw pid mr 0
    · exact pollLoop_calls_le gw pid mr 0
  · intro k hk hc hprev
    have hfind : pollLoop gw pid mr 0 = (true, k + 1) := by
      apply pollLoop_first_success gw pid mr 0 k hk
      · simpa using hc
      · intro i hi
        simpa using hprev i hi
    unfold _place_bracket_orders
    rw [if_pos hpid]
    dsimp only
    rw [hfind]
    simp [bracketPhase_posPolls]
  · intro hall
    have hp : pollLoop gw pid mr 0 = (false, mr) := by
      apply pollLoop_all_false
      intro i hi
      simpa using hall i hi
    refine ⟨?_, (posNotFoundMsg_contains mr rd).1, (posNotFoundMsg_contains mr rd).2⟩
    unfold _place_bracket_orders
    rw [if_pos hpid]
    dsimp only
    rw [hp]
    simp

/-- C3 witness at a concrete gateway with no position: 2 retries yield at
most 2 polls and no bracket call. -/
theorem c3_witness :
    (_place_bracket_orders gwPosAbsent (some 27) (some 95) (some 110) 2 1).posPolls ≤ 2 ∧
    (_place_bracket_orders gwPosAbsent (some 27) (some 95) (some 110) 2 1).bracketCalls = 0 :=
  ⟨(c3_polling_budget gwPosAbsent (some 27) (some 95) (some 110) 2 1 rfl).1, by
    have h := (c3_polling_budget gwPosAbsent (some 27) (some 95) (some 110) 2 1 rfl).2.2
      (fun i _ => rfl)
    rw [h.1]⟩

/-- C10: when every position lookup raises, the poll loop treats each raise
as "no position", never aborts, consumes the full retry budget, and the
workflow returns exactly the outcome of a genuinely absent position. -/
theorem c10_lookup_errors_nonfatal (gw : Gateway) (pid : Option Int) (slp tpp : Option Rat)
    (mr : Nat) (rd : Rat) (hpid : truthyInt pid = true)
    (herr : ∀ i, ∃ e, gw.getPosition i = .error e) :
    _place_bracket_orders gw pid slp tpp mr rd =
      { result := none, error := some (posNotFoundMsg mr rd)
        posPolls := mr, bracketCalls := 0 } ∧
    _place_bracket_orders gw pid slp tpp mr rd =
      _place_bracket_orders { gw with getPosition := fun _ => .ok none } pid slp tpp mr rd := by
  have hchk : ∀ i, _check_position_exists gw pid i = false := by
    intro i
    obtain ⟨e, he⟩ := herr i
    exact _check_position_exists_of_error gw pid i e he
  have h1 : _place_bracket_orders gw pid slp tpp mr rd =
      { result := none, error := some (posNotFoundMsg mr rd)
        posPolls := mr, bracketCalls := 0 } := by
    unfold _place_bracket_orders
    rw [if_pos hpid]
    dsimp only
    rw [pollLoop_all_false gw pid mr 0 (fun i _ => hchk (0 + i))]
    simp
  have hchk2 : ∀ i, _check_position_exists { gw with getPosition := fun _ => .ok none } pid i
      = false := by
    intro i
    simp [_check_position_exists]
  have h2 : _place_bracket_orders { gw with getPosition := fun _ => .ok none } pid slp tpp mr rd =
      { result := none, error := some (posNotFoundMsg mr rd)
        posPolls := mr, bracketCalls := 0 } := by
    unfold _place_bracket_orders
    rw [if_pos hpid]
    dsimp only
    rw [pollLoop_all_false _ pid mr 0 (fun i _ => hchk2 (0 + i))]
    simp
  exact ⟨h1, h1.trans h2.symm⟩

/-- C10 witness: a gateway raising `HTTP 500` on every lookup consumes the
full 3-poll budget. -/
theorem c10_witness :
    (_place_bracket_orders gwRaise (some 27) (some 95) (some 110) 3 1).posPolls = 3 := by
  have h := (c10_lookup_errors_nonfatal gwRaise (some 27) (some 95) (some 110) 3 1 rfl
    (fun _ => ⟨"HTTP 500", rfl⟩)).1
  rw [h]

/-- C5 counterexample: with a truthy `product_id` and neither price given,
the workflow does NOT return the no-SL/TP error before any position poll —
at a gateway whose position exists immediately one poll happens first, and
at a gateway whose polls all fail the returned error is the
position-not-found message, not the no-SL/TP message. -/
theorem c5_counterexample :
    (_place_bracket_orders gwPosNow (some 27) none none 60 1).posPolls = 1 ∧
    (_place_bracket_orders gwRaise (some 27) none none 2 1).error = some (posNotFoundMsg 2 1) ∧
    posNotFoundMsg 2 1 ≠ noSLTPMsg :=
  ⟨rfl, rfl, posNotFoundMsg_ne_noSLTPMsg 2 1⟩

/-- C5 amended: with neither stop-loss nor take-profit price given (both
`None`/zero), the workflow never calls `create_bracket_order` and returns no
bracket result, for all `product_id`, `max_retries` and `retry_delay`; it
returns `(None, noSLTPMsg)` immediately — with zero position polls — only
when `product_id` is not truthy; with a truthy `product_id` the position
polling runs first, and the returned error is the no-SL/TP message when a
position is found, or the position-not-found message on exhaustion. -/
theorem c5_amended_no_sltp (gw : Gateway) (pid : Option Int) (slp tpp : Option Rat)
    (mr : Nat) (rd : Rat) (hsl : truthyRat slp = false) (htp : truthyRat tpp = false) :
    (_place_bracket_orders gw pid slp tpp mr rd).bracketCalls = 0 ∧
    (_place_bracket_orders gw pid slp tpp mr rd).result = none ∧
    (truthyInt pid = false →
      _place_bracket_orders gw pid slp tpp mr rd =
        { result := none, error := some noSLTPMsg, posPolls := 0, bracketCalls := 0 }) ∧
    (truthyInt pid = true →
      (_place_bracket_orders gw pid slp tpp mr rd).error = some noSLTPMsg ∨
      (_place_bracket_orders gw pid slp tpp mr rd).error = some (posNotFoundMsg mr rd)) := by
  refine ⟨?_, ?_, ?_, ?_⟩
  · unfold _place_bracket_orders
    dsimp only
    split
    · split
      · rw [bracketPhase_noSLTP gw slp tpp _ hsl htp]
      · rfl
    · rw [bracketPhase_noSLTP gw slp tpp _ hsl htp]
  · unfold _place_bracket_orders
    dsimp only
    split
    · split
      · rw [bracketPhase_noSLTP gw slp tpp _ hsl htp]
      · rfl
    · rw [bracketPhase_noSLTP gw slp tpp _ hsl htp]
  · intro hnp
    simp only [_place_bracket_orders, hnp, Bool.false_eq_true, if_false]
    exact bracketPhase_noSLTP gw slp tpp 0 hsl htp
  · intro hp
    unfold _place_bracket_orders
    rw [if_pos hp]
    dsimp only
    split
    · rw [bracketPhase_noSLTP gw slp tpp _ hsl htp]
      exact Or.inl rfl
    · exact Or.inr rfl

/-- C5 amended witness: no `product_id` and no prices yield the immediate
no-SL/TP error. -/
theorem c5_amended_witness :
    _place_bracket_orders gwPosNow none none none 60 1 =
      { result := none, error := some noSLTPMsg, posPolls := 0, bracketCalls := 0 } :=
  (c5_amended_no_sltp gwPosNow none none none 60 1 rfl rfl).2.2.1 rfl




theorem truthyStr_some_iff (s : String) : truthyStr (some s) = true ↔ s ≠ "" := by
  simp [truthyStr]

/-- C4: instrument resolution precedence — a truthy `product_id` wins; else a
truthy `product_symbol` is used stripped and upper-cased; else a truthy
`symbol` is upper-cased, stripped and mapped through the static table; a
symbol outside the table, or the absence of all three identifiers, returns
`(False, None, error)` — the unknown-symbol error naming the known symbols —
with zero gateway calls of any kind. -/
theorem c4_resolution_precedence
    (gw : Gateway) (entry_price : Rat) (size : Int) (side : String)
    (slp tpp : Option Rat) (coid : Option String)
    (product_id : Option Int) (product_symbol symbol : Option String) :
    (truthyInt product_id = true →
      resolveProduct product_id product_symbol symbol = .ok (product_id, none)) ∧
    (truthyInt product_id = false →
      ∀ ps, product_symbol = some ps → ps ≠ "" → pyStrip ps ≠ "" →
      resolveProduct product_id product_symbol symbol =
        .ok (none, some (pyUpper (pyStrip ps)))) ∧
    (truthyInt product_id = false → truthyStr product_symbol = false →
      ∀ s, symbol = some s → s ≠ "" →
      ∀ prod, SYMBOL_TO_PRODUCT.lookup (pyStrip (pyUpper s)) = some prod →
      resolveProduct product_id product_symbol symbol = .ok (none, some prod)) ∧
    (truthyInt product_id = false → truthyStr product_symbol = false →
      ∀ s, symbol = some s → s ≠ "" → pyStrip (pyUpper s) ≠ "" →
      SYMBOL_TO_PRODUCT.lookup (pyStrip (pyUpper s)) = none →
      place_limit_order_wait gw entry_price size side slp tpp coid
        product_id product_symbol symbol = plowReject (unknownSymbolMsg s) ∧
      containsSub (unknownSymbolMsg s) "BTC" ∧ containsSub (unknownSymbolMsg s) "ETH") ∧
    (truthyInt product_id = false → truthyStr product_symbol = false →
      ∀ s, symbol = some s → s ≠ "" → pyStrip (pyUpper s) = "" →
      place_limit_order_wait gw entry_price size side slp tpp coid
        product_id product_symbol symbol = plowReject invalidSymbolMsg) ∧
    (truthyInt product_id = false → truthyStr product_symbol = false →
      truthyStr symbol = false →
      place_limit_order_wait gw entry_price size side slp tpp coid
        product_id product_symbol symbol = plowReject noIdentifierMsg) ∧
    (∀ m, plowReject m =
      { success := false, order_data := none, error := some m
        entryCalls := 0, posPolls := 0, bracketCalls := 0, bracketInvocation := none }) := by
  refine ⟨?_, ?_, ?_, ?_, ?_, ?_, fun m => rfl⟩
  · intro h
    unfold resolveProduct
    rw [if_pos h]
  · intro h ps hps hne htrim
    subst hps
    simp [resolveProduct, h, truthyStr, bne_iff_ne, hne, htrim]
  · intro h hps s hs hne prod hlk
    subst hs
    have hsu : pyStrip (pyUpper s) ≠ "" := by
      intro h0
      rw [h0] at hlk
      have hnone : SYMBOL_TO_PRODUCT.lookup "" = none := rfl
      exact Option.noConfusion (hnone.symm.trans hlk)
    have hts : truthyStr (some s) = true := (truthyStr_some_iff s).mpr hne
    have hbe : (pyStrip (pyUpper s) == "") = false := by simp [hsu]
    simp [resolveProduct, h, hps, hts, hbe, hlk]
  · intro h hps s hs hne hsu hlk
    subst hs
    have hts : truthyStr (some s) = true := (truthyStr_some_iff s).mpr hne
    have hbe : (pyStrip (pyUpper s) == "") = false := by simp [hsu]
    have hres : resolveProduct product_id product_symbol (some s)
        = .error (unknownSymbolMsg s) := by
      simp [resolveProduct, h, hps, hts, hbe, hlk]
    refine ⟨?_, (unknownSymbolMsg_contains s).1, (unknownSymbolMsg_contains s).2⟩
    unfold place_limit_order_wait
    rw [hres]
  · intro h hps s hs hne hsu
    subst hs
    have hts : truthyStr (some s) = true := (truthyStr_some_iff s).mpr hne
    have hbe : (pyStrip (pyUpper s) == "") = true := by simp [hsu]
    have hres : resolveProduct product_id product_symbol (some s)
        = .error invalidSymbolMsg := by
      simp [resolveProduct, h, hps, hts, hbe]
    unfold place_limit_order_wait
    rw [hres]
  · intro h hps hsym
    have hres : resolveProduct product_id product_symbol symbol
        = .error noIdentifierMsg := by
      simp [resolveProduct, h, hps, hsym]
    unfold place_limit_order_wait
    rw [hres]

/-- C4 witness: `symbol="DOGE"` with no product_id / product_symbol is
rejected with the known-symbols error and zero gateway calls. -/
theorem c4_witness :
    place_limit_order_wait gwPosNow 100 1 "buy" none none none none none (some "DOGE") =
      plowReject (unknownSymbolMsg "DOGE") :=
  ((c4_resolution_precedence gwPosNow 100 1 "buy" none none none none none
    (some "DOGE")).2.2.2.1 rfl rfl "DOGE" rfl (by decide) (by decide) rfl).1

/-- C1: whenever the entry-order submission succeeds, the call returns
`success = True` regardless of the bracket workflow's outcome: a truthy
bracket result is merged under `bracket_order`, a workflow error is merged
under `bracket_order_error` / `bracket_order_note`, the entry result is
otherwise returned unchanged, and the entry order is submitted exactly once
and never rolled back. -/
theorem c1_bracket_failure_nonfatal
    (gw : Gateway) (entry_price : Rat) (size : Int) (side : String)
    (slp tpp : Option Rat) (coid : Option String)
    (product_id : Option Int) (product_symbol symbol : Option String)
    (fpid : Option Int) (fpsym : Option String) (result : EntryResult)
    (hres : resolveProduct product_id product_symbol symbol = .ok (fpid, fpsym))
    (hid : (truthyInt fpid || truthyStr fpsym) = true)
    (hcli : gw.clientCheck = .ok ())
    (hord : gw.createOrder (buildOrderPayload entry_price size side coid fpid fpsym)
      = .ok result)
    (hbr : (truthyRat slp || truthyRat tpp) = true) :
    let out := place_limit_order_wait gw entry_price size side slp tpp coid
      product_id product_symbol symbol
    let budget : Nat × Rat :=
      if result.state == some "closed" && result.average_fill_price.isSome
      then (10, 0.5) else (60, 1)
    let bo := _place_bracket_orders gw fpid slp tpp budget.1 budget.2
    out.success = true ∧ out.entryCalls = 1 ∧
    (∀ br, bo.result = some br → br ≠ [] →
      out.order_data = some { base := result, bracket_order := some br
                              bracket_order_error := none, bracket_order_note := none }) ∧
    (∀ e, bo.error = some e →
      out.order_data = some { base := result, bracket_order := none
                              bracket_order_error := some (some e)
                              bracket_order_note := some bracketNoteMsg } ∧
      out.error = some e) := by
  have hm := place_limit_order_wait_entry_eq gw entry_price size side slp tpp coid
    product_id product_symbol symbol fpid fpsym result hres hid hcli hord
  dsimp only
  rw [hm]
  unfold plowAfterEntry
  dsimp only
  rw [if_pos hbr]
  refine ⟨rfl, rfl, ?_, ?_⟩
  · intro br hbo hne
    dsimp only
    rw [hbo]
    cases br with
    | nil => exact absurd rfl hne
    | cons a l => rfl
  · intro e he
    rcases _place_bracket_orders_dichotomy gw fpid slp tpp
        (if result.state == some "closed" && result.average_fill_price.isSome
          then ((10 : Nat), (0.5 : Rat)) else (60, 1)).1
        (if result.state == some "closed" && result.average_fill_price.isSome
          then ((10 : Nat), (0.5 : Rat)) else (60, 1)).2 with
      ⟨hrn, _⟩ | ⟨br2, _, hernone⟩
    · constructor
      · dsimp only
        rw [hrn, he]
      · dsimp only
        rw [he]
    · rw [hernone] at he
      exact Option.noConfusion he

/-- C1 witness: a failing bracket creation is surfaced as metadata on a
successful response. -/
theorem c1_witness :
    (place_limit_order_wait gwBracketFail 100 1 "buy" (some 95) (some 110) none
      (some 27) none none).success = true ∧
    (place_limit_order_wait gwBracketFail 100 1 "buy" (some 95) (some 110) none
      (some 27) none none).order_data =
      some { base := { state := some "open", average_fill_price := none }
             bracket_order := none
             bracket_order_error := some (some "insufficient margin")
             bracket_order_note := some bracketNoteMsg } := by
  have h := c1_bracket_failure_nonfatal gwBracketFail 100 1 "buy" (some 95) (some 110)
    none (some 27) none none (some 27) none
    { state := some "open", average_fill_price := none } rfl rfl rfl rfl rfl
  dsimp only at h
  exact ⟨h.1, (h.2.2.2 "insufficient margin" rfl).1⟩

/-- C2: on entry success with brackets requested, the bracket workflow gets
the short `(10, 0.5)` budget exactly when the returned order has
`state == "closed"` and a non-null `average_fill_price`, and the long
`(60, 1.0)` budget in every other case. -/
theorem c2_retry_budget_selection
    (gw : Gateway) (entry_price : Rat) (size : Int) (side : String)
    (slp tpp : Option Rat) (coid : Option String)
    (product_id : Option Int) (product_symbol symbol : Option String)
    (fpid : Option Int) (fpsym : Option String) (result : EntryResult)
    (hres : resolveProduct product_id product_symbol symbol = .ok (fpid, fpsym))
    (hid : (truthyInt fpid || truthyStr fpsym) = true)
    (hcli : gw.clientCheck = .ok ())
    (hord : gw.createOrder (buildOrderPayload entry_price size side coid fpid fpsym)
      = .ok result)
    (hbr : (truthyRat slp || truthyRat tpp) = true) :
    let out := place_limit_order_wait gw entry_price size side slp tpp coid
      product_id product_symbol symbol
    out.bracketInvocation =
      some (if result.state == some "closed" && result.average_fill_price.isSome
            then ((10 : Nat), (0.5 : Rat)) else (60, 1)) ∧
    (result.state = some "closed" → ∀ p, result.average_fill_price = some p →
      out.bracketInvocation = some (10, 0.5)) ∧
    ((result.state == some "closed" && result.average_fill_price.isSome) = false →
      out.bracketInvocation = some (60, 1)) := by
  have hm := place_limit_order_wait_entry_eq gw entry_price size side slp tpp coid
    product_id product_symbol symbol fpid fpsym result hres hid hcli hord
  dsimp only
  rw [hm]
  unfold plowAfterEntry
  dsimp only
  rw [if_pos hbr]
  refine ⟨rfl, ?_, ?_⟩
  · intro hs p hp
    have hc : (result.state == some "closed" && result.average_fill_price.isSome) = true := by
      rw [hs, hp]
      rfl
    dsimp only
    rw [hc]
    rfl
  · intro hc
    dsimp only
    rw [hc]
    rfl

/-- C2 witness: an immediately-executed entry order gets the short budget. -/
theorem c2_witness :
    (place_limit_order_wait gwExec 100 1 "buy" (some 95) (some 110) none
      (some 27) none none).bracketInvocation = some (10, 0.5) := by
  have h := c2_retry_budget_selection gwExec 100 1 "buy" (some 95) (some 110) none
    (some 27) none none (some 27) none
    { state := some "closed", average_fill_price := some 100 } rfl rfl rfl rfl rfl
  dsimp only at h
  exact h.2.1 rfl 100 rfl

/-- C9: at the `(success, order_data, error)` interface a non-`None` error
does not imply failure — on entry success the call's error slot carries
exactly the bracket workflow's error, so `error` is non-`None` together with
`success = True` precisely when brackets were requested and their placement
failed. -/
theorem c9_error_alongside_success
    (gw : Gateway) (entry_price : Rat) (size : Int) (side : String)
    (slp tpp : Option Rat) (coid : Option String)
    (product_id : Option Int) (product_symbol symbol : Option String)
    (fpid : Option Int) (fpsym : Option String) (result : EntryResult)
    (hres : resolveProduct product_id product_symbol symbol = .ok (fpid, fpsym))
    (hid : (truthyInt fpid || truthyStr fpsym) = true)
    (hcli : gw.clientCheck = .ok ())
    (hord : gw.createOrder (buildOrderPayload entry_price size side coid fpid fpsym)
      = .ok result) :
    let out := place_limit_order_wait gw entry_price size side slp tpp coid
      product_id product_symbol symbol
    let budget : Nat × Rat :=
      if result.state == some "closed" && result.average_fill_price.isSome
      then (10, 0.5) else (60, 1)
    let bo := _place_bracket_orders gw fpid slp tpp budget.1 budget.2
    out.success = true ∧
    ((truthyRat slp || truthyRat tpp) = true → out.error = bo.error) ∧
    ((truthyRat slp || truthyRat tpp) = false → out.error = none) ∧
    (out.error.isSome = true ↔
      ((truthyRat slp || truthyRat tpp) = true ∧ bo.error.isSome = true)) := by
  have hm := place_limit_order_wait_entry_eq gw entry_price size side slp tpp coid
    product_id product_symbol symbol fpid fpsym result hres hid hcli hord
  dsimp only
  rw [hm]
  unfold plowAfterEntry
  dsimp only
  cases hreq : (truthyRat slp || truthyRat tpp) with
  | true =>
    rw [if_pos rfl]
    refine ⟨rfl, fun _ => rfl, fun h => absurd h (by decide), ?_⟩
    simp
  | false =>
    rw [if_neg (by decide)]
    refine ⟨rfl, fun h => absurd h (by decide), fun _ => rfl, ?_⟩
    simp

/-- C9 witness: failed bracket placement yields `success = True` with the
bracket error in the error slot. -/
theorem c9_witness :
    (place_limit_order_wait gwBracketFail 100 1 "buy" (some 95) (some 110) none
      (some 27) none none).success = true ∧
    (place_limit_order_wait gwBracketFail 100 1 "buy" (some 95) (some 110) none
      (some 27) none none).error = some "insufficient margin" := by
  have h := c9_error_alongside_success gwBracketFail 100 1 "buy" (some 95) (some 110)
    none (some 27) none none (some 27) none
    { state := some "open", average_fill_price := none } rfl rfl rfl rfl
  dsimp only at h
  exact ⟨h.1, (h.2.1 rfl).trans rfl⟩

/-- C6: with neither stop-loss nor take-profit price given, the bracket
workflow is never invoked, no position-lookup or bracket-creation gateway
call occurs, and the returned order_data carries none of the bracket keys. -/
theorem c6_no_brackets_frame
    (gw : Gateway) (entry_price : Rat) (size : Int) (side : String)
    (slp tpp : Option Rat) (coid : Option String)
    (product_id : Option Int) (product_symbol symbol : Option String)
    (hsl : truthyRat slp = false) (htp : truthyRat tpp = false) :
    let out := place_limit_order_wait gw entry_price size side slp tpp coid
      product_id product_symbol symbol
    out.bracketInvocation = none ∧ out.posPolls = 0 ∧ out.bracketCalls = 0 ∧
    (∀ d, out.order_data = some d →
      d.bracket_order = none ∧ d.bracket_order_error = none ∧
      d.bracket_order_note = none) := by
  dsimp only
  unfold place_limit_order_wait
  cases hres2 : resolveProduct product_id product_symbol symbol with
  | error e => simp [plowReject]
  | ok p =>
    obtain ⟨fpid, fpsym⟩ := p
    dsimp only
    split
    · simp [plowReject]
    · cases hcli2 : gw.clientCheck with
      | error e => simp [plowReject]
      | ok u =>
        cases hord2 : gw.createOrder
            (buildOrderPayload entry_price size side coid fpid fpsym) with
        | error e => simp
        | ok result =>
          unfold plowAfterEntry
          dsimp only
          rw [if_neg (by rw [hsl, htp]; simp)]
          simp

/-- C6 witness: an order without SL/TP at a live gateway performs no polls
and reports no bracket keys. -/
theorem c6_witness :
    (place_limit_order_wait gwPosNow 100 1 "buy" none none none
      (some 27) none none).bracketInvocation = none ∧
    (place_limit_order_wait gwPosNow 100 1 "buy" none none none
      (some 27) none none).posPolls = 0 := by
  have h := c6_no_brackets_frame gwPosNow 100 1 "buy" none none none
    (some 27) none none rfl rfl
  dsimp only at h
  exact ⟨h.1, h.2.1⟩

theorem breakoutStop_stopped (e : Bool) :
    breakoutStop StrategyStatus.stopped e = (true, StrategyStatus.stopped) := rfl

theorem breakoutStop_status (s : StrategyStatus) (e : Bool) :
    (breakoutStop s e).2 = s ∨ (breakoutStop s e).2 = StrategyStatus.stopped := by
  unfold breakoutStop
  repeat' split
  all_goals simp

theorem lookupStrategy_update_eq :
    ∀ (reg : Registry) (id : String) (s2 s : StrategyStatus),
    lookupStrategy reg id = some s →
    lookupStrategy (updateStrategy reg id s2) id = some s2 := by
  intro reg
  induction reg with
  | nil => intro id s2 s h; simp [lookupStrategy] at h
  | cons hd tl ih =>
    obtain ⟨j, st⟩ := hd
    intro id s2 s h
    by_cases hj : j = id
    · simp [lookupStrategy, updateStrategy, hj]
    · simp only [lookupStrategy, updateStrategy, hj, if_false] at h ⊢
      exact ih id s2 s h

theorem lookupStrategy_update_ne :
    ∀ (reg : Registry) (id : String) (s2 : StrategyStatus) (i : String), i ≠ id →
    lookupStrategy (updateStrategy reg id s2) i = lookupStrategy reg i := by
  intro reg
  induction reg with
  | nil => intro id s2 i _; rfl
  | cons hd tl ih =>
    obtain ⟨j, st⟩ := hd
    intro id s2 i hi
    by_cases hj : j = id
    · have hji : j ≠ i := by rw [hj]; exact fun h => hi h.symm
      have hidi : id ≠ i := hj ▸ hji
      simp [lookupStrategy, updateStrategy, hj, hji, hidi]
    · by_cases hji : j = i
      · simp [lookupStrategy, updateStrategy, hj, hji, hi]
      · simp only [lookupStrategy, updateStrategy, hj, hji, if_false]
        exact ih id s2 i hi

theorem lookupStrategy_remove_ne :
    ∀ (reg : Registry) (id : String) (i : String), i ≠ id →
    lookupStrategy (removeStrategyEntry reg id) i = lookupStrategy reg i := by
  intro reg
  induction reg with
  | nil => intro id i _; rfl
  | cons hd tl ih =>
    obtain ⟨j, st⟩ := hd
    intro id i hi
    by_cases hj : j = id
    · have hji : j ≠ i := by rw [hj]; exact fun h => hi h.symm
      have hidi : id ≠ i := hj ▸ hji
      simp [lookupStrategy, removeStrategyEntry, hj, hji, hidi]
    · by_cases hji : j = i
      · simp [lookupStrategy, removeStrategyEntry, hj, hji, hi]
      · simp only [lookupStrategy, removeStrategyEntry, hj, hji, if_false]
        exact ih id i hi

theorem lookupStrategy_append_sing :
    ∀ (reg : Registry) (newId : String) (s : StrategyStatus) (i : String), i ≠ newId →
    lookupStrategy (reg ++ [(newId, s)]) i = lookupStrategy reg i := by
  intro reg
  induction reg with
  | nil =>
    intro newId s i hi
    have : newId ≠ i := fun h => hi h.symm
    simp [lookupStrategy, this]
  | cons hd tl ih =>
    obtain ⟨j, st⟩ := hd
    intro newId s i hi
    by_cases hji : j = i
    · simp [lookupStrategy, hji]
    · simp only [List.cons_append, lookupStrategy, hji, if_false]
      exact ih newId s i hi

/-- C7: `start_strategy` with an unknown strategy type raises and leaves the
registry exactly as it was; likewise, whenever the constructed strategy's
`start()` reports failure (and in every other raising branch) no instance is
registered and the registry is unchanged. -/
theorem c7_start_failure_no_side_effects (env : StartEnv) (reg : Registry)
    (strategy_type : String) :
    (strategy_type ≠ "breakout" →
      start_strategy env reg strategy_type =
        (.error ("Unknown strategy type: " ++ strategy_type), reg)) ∧
    (env.startResult = false →
      (start_strategy env reg strategy_type).2 = reg ∧
      ∀ id, (start_strategy env reg strategy_type).1 ≠ .ok id) := by
  constructor
  · intro h
    unfold start_strategy
    rw [if_neg h]
  · intro h
    unfold start_strategy
    split
    · cases hc : env.constructOk with
      | error e => exact ⟨rfl, fun id => by simp⟩
      | ok u =>
        rw [h]
        exact ⟨rfl, fun id => by simp⟩
    · exact ⟨rfl, fun id => by simp⟩

/-- C7 witness: starting a `"doge"` strategy raises and the registry keeps
its single entry. -/
theorem c7_witness :
    start_strategy { newId := "id-1", constructOk := .ok (), startResult := true }
      [("a", StrategyStatus.running)] "doge" =
      (.error ("Unknown strategy type: " ++ "doge"), [("a", StrategyStatus.running)]) :=
  (c7_start_failure_no_side_effects
    { newId := "id-1", constructOk := .ok (), startResult := true }
    [("a", StrategyStatus.running)] "doge").1 (by decide)

/-- C8 counterexample: ERROR is not terminal — `stop_strategy` on an
instance whose status is ERROR succeeds and moves that same instance to
STOPPED, refuting "an instance in ERROR stays in ERROR". -/
theorem c8_counterexample :
    stop_strategy [("a", StrategyStatus.error)] "a" false =
      (true, [("a", StrategyStatus.stopped)]) ∧
    lookupStrategy [("a", StrategyStatus.error)] "a" = some StrategyStatus.error ∧
    lookupStrategy (stop_strategy [("a", StrategyStatus.error)] "a" false).2 "a" =
      some StrategyStatus.stopped ∧
    StrategyStatus.stopped ≠ StrategyStatus.error :=
  ⟨rfl, rfl, rfl, by decide⟩

/-- C8 amended: STOPPED is terminal — stopping a STOPPED instance returns
`True` and leaves it STOPPED; ERROR is not terminal, but under every manager
operation an instance's status only ever stays the same or becomes STOPPED
(never RUNNING again); `remove_strategy` and `start_strategy` leave every
other instance untouched, a start registering only the fresh id. -/
theorem c8_amended_terminality :
    (∀ (reg : Registry) (id : String) (e : Bool),
      lookupStrategy reg id = some StrategyStatus.stopped →
      (stop_strategy reg id e).1 = true ∧
      lookupStrategy (stop_strategy reg id e).2 id = some StrategyStatus.stopped) ∧
    (∀ (reg : Registry) (id : String) (e : Bool) (i : String) (s s' : StrategyStatus),
      lookupStrategy reg i = some s →
      lookupStrategy (stop_strategy reg id e).2 i = some s' →
      s' = s ∨ s' = StrategyStatus.stopped) ∧
    (∀ (reg : Registry) (id : String) (e : Bool) (i : String), i ≠ id →
      lookupStrategy (remove_strategy reg id e).2 i = lookupStrategy reg i) ∧
    (∀ (env : StartEnv) (reg : Registry) (ty : String) (i : String), i ≠ env.newId →
      lookupStrategy (start_strategy env reg ty).2 i = lookupStrategy reg i) := by
  refine ⟨?_, ?_, ?_, ?_⟩
  · intro reg id e h
    unfold stop_strategy
    rw [h]
    dsimp only
    exact ⟨rfl, lookupStrategy_update_eq reg id _ _ h⟩
  · intro reg id e i s s' hs hs'
    unfold stop_strategy at hs'
    cases hl : lookupStrategy reg id with
    | none =>
      rw [hl] at hs'
      dsimp only at hs'
      rw [hs] at hs'
      exact Or.inl (Option.some.inj hs').symm
    | some st =>
      rw [hl] at hs'
      dsimp only at hs'
      by_cases hi : i = id
      · subst hi
        rw [hl] at hs
        have hst : st = s := Option.some.inj hs
        rw [lookupStrategy_update_eq reg i _ st hl] at hs'
        have : s' = (breakoutStop st e).2 := (Option.some.inj hs').symm
        rcases breakoutStop_status st e with h2 | h2
        · exact Or.inl (by rw [this, h2, hst])
        · exact Or.inr (by rw [this, h2])
      · rw [lookupStrategy_update_ne reg id _ i hi] at hs'
        rw [hs] at hs'
        exact Or.inl (Option.some.inj hs').symm
  · intro reg id e i hi
    unfold remove_strategy
    cases hl : lookupStrategy reg id with
    | none => rfl
    | some st =>
      dsimp only
      rw [lookupStrategy_remove_ne _ id i hi]
      by_cases hst : st = StrategyStatus.running
      · rw [if_pos hst]
        exact lookupStrategy_update_ne reg id _ i hi
      · rw [if_neg hst]
  · intro env reg ty i hi
    unfold start_strategy
    split
    · cases hc : env.constructOk with
      | error e => rfl
      | ok u =>
        cases hr : env.startResult with
        | true =>
          dsimp only
          rw [if_pos rfl]
          exact lookupStrategy_append_sing reg env.newId _ i hi
        | false =>
          dsimp only
          rw [if_neg (by simp)]
    · rfl

/-- C8 amended witness: stopping an already-STOPPED instance keeps it
STOPPED. -/
theorem c8_witness :
    (stop_strategy [("a", StrategyStatus.stopped)] "a" false).1 = true ∧
    lookupStrategy (stop_strategy [("a", StrategyStatus.stopped)] "a" false).2 "a" =
      some StrategyStatus.stopped :=
  c8_amended_terminality.1 [("a", StrategyStatus.stopped)] "a" false rfl
